import Mathlib

/-!
Shallow embedding of `src/src/maxon_epos_ethercat_sdk/Maxon.cpp`
(maxon_epos_ethercat_sdk): the CiA 402 drive lifecycle controller.

Modelling conventions:
* A `Controlword` produced by the controller is abstracted to the state
  transition it encodes (`Option StateTransition`): `setAllFalse()` is `none`
  and `setStateTransitionN()` is `some tN`.  The raw bit patterns live in
  `Controlword.cpp`, which only the transition identity matters for here.
* `addErrorToReading` / `reading_.addError` append to a list of `ErrorType`.
* Wall-clock time is abstracted: functions that read
  `std::chrono::steady_clock::now()` take the elapsed duration (in abstract
  microsecond units) as an explicit `Nat` argument.
* The decoded drive state of the last read (`reading_.getDriveState()`) is a
  field of the machine state, written by `updateRead` with the state decoded
  from the received statusword.
-/

namespace Maxon

/-- CiA 402 drive states as enumerated in the spec's data model and matched on
by `Maxon.cpp` (the C++ `default:` branches of the 6-way switches are
unreachable for these six values except where noted). -/
inductive DriveState
  | SwitchOnDisabled
  | ReadyToSwitchOn
  | SwitchedOn
  | OperationEnabled
  | QuickStopActive
  | Fault
deriving DecidableEq, Repr, Fintype

/-- The CiA 402 state transitions used by `Maxon.cpp`
(`StateTransition::_2` .. `StateTransition::_15`). -/
inductive StateTransition
  | t2
  | t3
  | t4
  | t5
  | t6
  | t7
  | t8
  | t9
  | t10
  | t11
  | t12
  | t15
deriving DecidableEq, Repr, Fintype

/-- Modes of operation (`ModeOfOperationEnum`); `NA` is the unresolved mode. -/
inductive ModeOfOperationEnum
  | NA
  | ProfiledPositionMode
  | ProfiledVelocityMode
  | HomingMode
  | CyclicSynchronousPositionMode
  | CyclicSynchronousVelocityMode
  | CyclicSynchronousTorqueMode
deriving DecidableEq, Repr, Fintype

/-- Write-direction PDO frame variants (`RxPdoTypeEnum`); `NA` stands for an
unsupported selection handled by the `default:` branch of `updateWrite`. -/
inductive RxPdoTypeEnum
  | NA
  | RxPdoStandard
  | RxPdoCSP
  | RxPdoCST
  | RxPdoCSV
  | RxPdoCSTCSP
  | RxPdoPVM
deriving DecidableEq, Repr, Fintype

/-- Read-direction PDO frame variants (`TxPdoTypeEnum`). -/
inductive TxPdoTypeEnum
  | NA
  | TxPdoStandard
  | TxPdoCSP
  | TxPdoCST
  | TxPdoCSV
  | TxPdoCSTCSP
  | TxPdoPVM
deriving DecidableEq, Repr, Fintype

/-- The error taxonomy reported through `addErrorToReading` /
`reading_.addError` in `Maxon.cpp`. -/
inductive ErrorType
  | ConfigurationError
  | ModeOfOperationError
  | RxPdoTypeError
  | TxPdoTypeError
  | SdoStateTransitionError
  | PdoStateTransitionError
deriving DecidableEq, Repr, Fintype

/-- The fields of `Configuration` that `Maxon.cpp` reads.  Physical quantities
(doubles in the C++) are modelled as exact rationals; timeouts are abstract
microsecond counts. -/
structure Configuration where
  rxPdoTypeEnum : RxPdoTypeEnum
  txPdoTypeEnum : TxPdoTypeEnum
  modeOfOperationEnum : ModeOfOperationEnum
  useMultipleModeOfOperations : Bool
  useRawCommands : Bool
  positionEncoderResolution : ℚ
  nominalCurrentA : ℚ
  motorConstant : ℚ
  gearRatio : ℚ
  maxCurrentA : ℚ
  minNumberOfSuccessfulTargetStateReadings : Nat
  driveStateChangeMinTimeout : Nat
  driveStateChangeMaxTimeout : Nat
  configRunSdoVerifyTimeout : Nat

/-- `Maxon::getNextStateTransitionControlword(requested, current)`: the single
next transition for the PDO (cyclic) channel.  Returns the controlword
(abstracted to the transition it encodes, `none` for `setAllFalse`) together
with whether `addErrorToReading(ErrorType::PdoStateTransitionError)` was
called.  Self-pairs hit the "drive state has already been reached" branch
(no transition set, error added); a requested state of `Fault` hits the outer
`default:` branch (no transition set, error added). -/
def getNextStateTransitionControlword (requested current : DriveState) :
    Option StateTransition × Bool :=
  match requested, current with
  | .SwitchOnDisabled, .SwitchOnDisabled => (none, true)
  | .SwitchOnDisabled, .ReadyToSwitchOn => (some .t7, false)
  | .SwitchOnDisabled, .SwitchedOn => (some .t10, false)
  | .SwitchOnDisabled, .OperationEnabled => (some .t9, false)
  | .SwitchOnDisabled, .QuickStopActive => (some .t12, false)
  | .SwitchOnDisabled, .Fault => (some .t15, false)
  | .ReadyToSwitchOn, .SwitchOnDisabled => (some .t2, false)
  | .ReadyToSwitchOn, .ReadyToSwitchOn => (none, true)
  | .ReadyToSwitchOn, .SwitchedOn => (some .t6, false)
  | .ReadyToSwitchOn, .OperationEnabled => (some .t8, false)
  | .ReadyToSwitchOn, .QuickStopActive => (some .t12, false)
  | .ReadyToSwitchOn, .Fault => (some .t15, false)
  | .SwitchedOn, .SwitchOnDisabled => (some .t2, false)
  | .SwitchedOn, .ReadyToSwitchOn => (some .t3, false)
  | .SwitchedOn, .SwitchedOn => (none, true)
  | .SwitchedOn, .OperationEnabled => (some .t5, false)
  | .SwitchedOn, .QuickStopActive => (some .t12, false)
  | .SwitchedOn, .Fault => (some .t15, false)
  | .OperationEnabled, .SwitchOnDisabled => (some .t2, false)
  | .OperationEnabled, .ReadyToSwitchOn => (some .t3, false)
  | .OperationEnabled, .SwitchedOn => (some .t4, false)
  | .OperationEnabled, .OperationEnabled => (none, true)
  | .OperationEnabled, .QuickStopActive => (some .t12, false)
  | .OperationEnabled, .Fault => (some .t15, false)
  | .QuickStopActive, .SwitchOnDisabled => (some .t2, false)
  | .QuickStopActive, .ReadyToSwitchOn => (some .t3, false)
  | .QuickStopActive, .SwitchedOn => (some .t4, false)
  | .QuickStopActive, .OperationEnabled => (some .t11, false)
  | .QuickStopActive, .QuickStopActive => (none, true)
  | .QuickStopActive, .Fault => (some .t15, false)
  | .Fault, _ => (none, true)

/-- `Maxon::setDriveStateViaSdo(driveState)` with the observed current state
made explicit: the ordered list of `stateTransitionViaSdo` calls issued for a
(requested, current) pair, `none` when the `default:` branch is hit (that is,
when the requested state is `Fault`), together with whether
`addErrorToReading(ErrorType::SdoStateTransitionError)` was called.
Self-pairs execute `success &= true`: an empty transition list and no error. -/
def setDriveStateViaSdo (requested current : DriveState) :
    Option (List StateTransition) × Bool :=
  match requested, current with
  | .SwitchOnDisabled, .SwitchOnDisabled => (some [], false)
  | .SwitchOnDisabled, .ReadyToSwitchOn => (some [.t7], false)
  | .SwitchOnDisabled, .SwitchedOn => (some [.t10], false)
  | .SwitchOnDisabled, .OperationEnabled => (some [.t9], false)
  | .SwitchOnDisabled, .QuickStopActive => (some [.t12], false)
  | .SwitchOnDisabled, .Fault => (some [.t15], false)
  | .ReadyToSwitchOn, .SwitchOnDisabled => (some [.t2], false)
  | .ReadyToSwitchOn, .ReadyToSwitchOn => (some [], false)
  | .ReadyToSwitchOn, .SwitchedOn => (some [.t6], false)
  | .ReadyToSwitchOn, .OperationEnabled => (some [.t8], false)
  | .ReadyToSwitchOn, .QuickStopActive => (some [.t12, .t2], false)
  | .ReadyToSwitchOn, .Fault => (some [.t15, .t2], false)
  | .SwitchedOn, .SwitchOnDisabled => (some [.t2, .t3], false)
  | .SwitchedOn, .ReadyToSwitchOn => (some [.t3], false)
  | .SwitchedOn, .SwitchedOn => (some [], false)
  | .SwitchedOn, .OperationEnabled => (some [.t5], false)
  | .SwitchedOn, .QuickStopActive => (some [.t12, .t2, .t3], false)
  | .SwitchedOn, .Fault => (some [.t15, .t2, .t3], false)
  | .OperationEnabled, .SwitchOnDisabled => (some [.t2, .t3, .t4], false)
  | .OperationEnabled, .ReadyToSwitchOn => (some [.t3, .t4], false)
  | .OperationEnabled, .SwitchedOn => (some [.t4], false)
  | .OperationEnabled, .OperationEnabled => (some [], false)
  | .OperationEnabled, .QuickStopActive => (some [.t12, .t2, .t3, .t4], false)
  | .OperationEnabled, .Fault => (some [.t15, .t2, .t3, .t4], false)
  | .QuickStopActive, .SwitchOnDisabled => (some [.t2, .t3, .t4, .t11], false)
  | .QuickStopActive, .ReadyToSwitchOn => (some [.t3, .t4, .t11], false)
  | .QuickStopActive, .SwitchedOn => (some [.t4, .t11], false)
  | .QuickStopActive, .OperationEnabled => (some [.t11], false)
  | .QuickStopActive, .QuickStopActive => (some [], false)
  | .QuickStopActive, .Fault => (some [.t15, .t2, .t3, .t4, .t11], false)
  | .Fault, _ => (none, true)

/-- The raw (already unit-converted) fields of the staged `Command` that
`Maxon::updateWrite` copies into the outgoing frame, plus the command's mode
of operation.  The getters live in `Command.hpp`; `updateWrite` only copies
their values. -/
structure StagedCommand where
  targetPositionRaw : Int
  targetVelocityRaw : Int
  targetTorqueRaw : Int
  positionOffsetRaw : Int
  velocityOffsetRaw : Int
  torqueOffsetRaw : Int
  profileAccelRaw : Int
  profileDeccelRaw : Int
  motionProfileType : Int
  modeOfOperation : ModeOfOperationEnum
deriving DecidableEq, Repr

/-- The write-direction frames built by `Maxon::updateWrite`, one constructor
per `RxPdoTypeEnum` case, each carrying exactly the fields that case assigns
(the `RxPdoPVM` case assigns no mode-of-operation byte). -/
inductive RxFrame
  | standard (modeOfOperation : ModeOfOperationEnum)
      (controlWord : Option StateTransition)
  | csp (targetPosition positionOffset torqueOffset : Int)
      (controlWord : Option StateTransition)
      (modeOfOperation : ModeOfOperationEnum)
  | cst (targetTorque torqueOffset : Int)
      (controlWord : Option StateTransition)
      (modeOfOperation : ModeOfOperationEnum)
  | csv (targetVelocity velocityOffset : Int)
      (controlWord : Option StateTransition)
      (modeOfOperation : ModeOfOperationEnum)
  | cstcsp (controlWord : Option StateTransition)
      (modeOfOperation : ModeOfOperationEnum)
  | pvm (controlWord : Option StateTransition)
      (targetVelocity profileAccel profileDeccel : Int)
      (motionProfileType : Int)
deriving DecidableEq, Repr

/-- The control word carried by a frame: every variant assigns one. -/
def RxFrame.controlWordOf : RxFrame → Option StateTransition
  | .standard _ cw => cw
  | .csp _ _ _ cw _ => cw
  | .cst _ _ cw _ => cw
  | .csv _ _ cw _ => cw
  | .cstcsp cw _ => cw
  | .pvm cw _ _ _ _ => cw

/-- The mode-of-operation byte carried by a frame, `none` when the variant
does not assign one. -/
def RxFrame.modeOfOperationOf : RxFrame → Option ModeOfOperationEnum
  | .standard m _ => some m
  | .csp _ _ _ _ m => some m
  | .cst _ _ _ m => some m
  | .csv _ _ _ m => some m
  | .cstcsp _ m => some m
  | .pvm _ _ _ _ _ => none

/-- The mutable per-device fields of `Maxon` that the cyclic paths and the
lifecycle controller touch.  `readingDriveState` is the drive state decoded
from the most recent statusword (`reading_.getDriveState()`);
`readingErrors` is the accumulated error list of the `Reading`;
`controlword` is abstracted to the transition it encodes. -/
structure MaxonState where
  modeOfOperation : ModeOfOperationEnum
  conductStateChange : Bool
  stateChangeSuccessful : Bool
  hasRead : Bool
  targetDriveState : DriveState
  numberOfSuccessfulTargetStateReadings : Nat
  controlword : Option StateTransition
  readingDriveState : DriveState
  readingErrors : List ErrorType
deriving DecidableEq, Repr

/-- `Maxon::updateRead` with the statusword decode abstracted to the decoded
drive state `d`: stores the new decoded state into the reading and sets the
`hasRead_` flag (the source sets it only when it is false, which yields the
same state).  The fault-state branch only logs. -/
def updateRead (d : DriveState) (s : MaxonState) : MaxonState :=
  { s with readingDriveState := d, hasRead := true }

/-- `Maxon::engagePdoStateMachine`, with the elapsed time since
`driveStateChangeTimePoint_` passed in as `elapsed`.  When the decoded
current state equals the target, the confirmation counter is incremented and,
once it reaches the configured minimum, the method returns early with the
change marked complete — without clearing `hasRead_`.  Otherwise (and when
the counter is still short) `hasRead_` is cleared at the end; a new
controlword is fetched only when the minimum dwell time has elapsed. -/
def engagePdoStateMachine (cfg : Configuration) (elapsed : Nat)
    (s : MaxonState) : MaxonState :=
  let current := s.readingDriveState
  if current = s.targetDriveState then
    let n := s.numberOfSuccessfulTargetStateReadings + 1
    if cfg.minNumberOfSuccessfulTargetStateReadings ≤ n then
      { s with conductStateChange := false,
               numberOfSuccessfulTargetStateReadings := 0,
               stateChangeSuccessful := true }
    else
      { s with numberOfSuccessfulTargetStateReadings := n, hasRead := false }
  else if cfg.driveStateChangeMinTimeout < elapsed then
    let cw := getNextStateTransitionControlword s.targetDriveState current
    { s with controlword := cw.1,
             readingErrors :=
               if cw.2 then ErrorType.PdoStateTransitionError :: s.readingErrors
               else s.readingErrors,
             hasRead := false }
  else
    { s with hasRead := false }

/-- `Maxon::updateWrite`: reports `ModeOfOperationError` and returns without
a frame when no mode of operation is resolved; otherwise engages the PDO
state machine when a state change is pending and a fresh read exists, then
builds the frame for the configured variant (the `default:` branch reports
`RxPdoTypeError` and emits nothing).  Returns the new state and the frame
passed to `bus_->writeRxPdo`, if any. -/
def updateWrite (cfg : Configuration) (elapsed : Nat) (staged : StagedCommand)
    (s : MaxonState) : MaxonState × Option RxFrame :=
  if s.modeOfOperation = ModeOfOperationEnum.NA then
    ({ s with readingErrors := ErrorType.ModeOfOperationError :: s.readingErrors },
     none)
  else
    let s1 := if s.conductStateChange && s.hasRead then
                engagePdoStateMachine cfg elapsed s
              else s
    match cfg.rxPdoTypeEnum with
    | .RxPdoStandard =>
        (s1, some (.standard s1.modeOfOperation s1.controlword))
    | .RxPdoCSP =>
        (s1, some (.csp staged.targetPositionRaw staged.positionOffsetRaw
          staged.torqueOffsetRaw s1.controlword staged.modeOfOperation))
    | .RxPdoCST =>
        (s1, some (.cst staged.targetTorqueRaw staged.torqueOffsetRaw
          s1.controlword staged.modeOfOperation))
    | .RxPdoCSV =>
        (s1, some (.csv staged.targetVelocityRaw staged.velocityOffsetRaw
          s1.controlword staged.modeOfOperation))
    | .RxPdoCSTCSP =>
        (s1, some (.cstcsp s1.controlword staged.modeOfOperation))
    | .RxPdoPVM =>
        (s1, some (.pvm s1.controlword staged.targetVelocityRaw
          staged.profileAccelRaw staged.profileDeccelRaw
          staged.motionProfileType))
    | .NA =>
        ({ s1 with readingErrors := ErrorType.RxPdoTypeError :: s1.readingErrors },
         none)

/-- `Maxon::setDriveStateViaPdo(driveState, false)` — the non-waiting path:
resets the success flag, arms `conductStateChange_`, records the target,
clears `hasRead_` (and resets `driveStateChangeTimePoint_`, which is
abstracted away here), then returns `true` immediately. -/
def setDriveStateViaPdoNoWait (s : MaxonState) (driveState : DriveState) :
    MaxonState × Bool :=
  ({ s with stateChangeSuccessful := false,
            conductStateChange := true,
            targetDriveState := driveState,
            hasRead := false },
   true)

/-- The waiting loop of `Maxon::setDriveStateViaPdo(driveState, true)`.
`states n` gives `(stateChangeSuccessful_, conductStateChange_)` as observed
at the n-th acquisition of the mutex (the cyclic thread mutates them while
the mutex is released during the 1 ms sleeps, so elapsed time is modelled as
the iteration count).  Each iteration first checks the success flag, then the
timeout; the loop itself never writes either flag, so the second component of
the result is simply the `conductStateChange_` value observed on exit. -/
def pdoWaitAux (timeout : Nat) (states : Nat → Bool × Bool) (n : Nat) :
    Bool × Bool :=
  if (states n).1 then (true, (states n).2)
  else if h : timeout < n then (false, (states n).2)
  else pdoWaitAux timeout states (n + 1)
termination_by timeout + 1 - n
decreasing_by omega

/-- `Maxon::setDriveStateViaPdo(driveState, true)` — the waiting path, after
the arming writes (which are those of `setDriveStateViaPdoNoWait`). -/
def setDriveStateViaPdoWait (cfg : Configuration) (states : Nat → Bool × Bool) :
    Bool × Bool :=
  pdoWaitAux cfg.driveStateChangeMaxTimeout states 0

/-- The mode-of-operation policy of `Maxon::stageCommand` (its tail): when
`allowModeChange_` is set, the active mode is overwritten with the command's
mode; otherwise a differing non-NA command mode is rejected with an error
message and the active mode is retained.  Returns the resulting active mode
and whether the rejection error was emitted. -/
def stageCommandMode (allowModeChange : Bool)
    (modeOfOperation cmdMode : ModeOfOperationEnum) :
    ModeOfOperationEnum × Bool :=
  if allowModeChange then (cmdMode, false)
  else if modeOfOperation ≠ cmdMode ∧ cmdMode ≠ ModeOfOperationEnum.NA then
    (modeOfOperation, true)
  else (modeOfOperation, false)

/-- The `allowModeChange_` computation of `Maxon::loadConfiguration`. -/
def allowModeChange (cfg : Configuration) : Bool :=
  cfg.useMultipleModeOfOperations
    && (cfg.rxPdoTypeEnum = RxPdoTypeEnum.RxPdoStandard)
    && (cfg.txPdoTypeEnum = TxPdoTypeEnum.TxPdoStandard)

/-- The position scaling factor computed by `Maxon::stageCommand`:
`positionEncoderResolution / (2.0 * M_PI)`.  The double constant `M_PI` is
abstracted as the parameter `piv`; all algebraic facts below hold for every
nonzero value of it, and double arithmetic is modelled as exact rational
arithmetic. -/
def positionFactorRadToInteger (cfg : Configuration) (piv : ℚ) : ℚ :=
  cfg.positionEncoderResolution / (2 * piv)

/-- The current scaling factor computed by `Maxon::stageCommand`:
`1000.0 / nominalCurrentA`. -/
def currentFactorAToInteger (cfg : Configuration) : ℚ :=
  1000 / cfg.nominalCurrentA

/-- The torque scaling factor computed by `Maxon::stageCommand`:
`currentFactorAToInt / motorConstant / gearRatio`. -/
def torqueFactorNmToInteger (cfg : Configuration) : ℚ :=
  currentFactorAToInteger cfg / cfg.motorConstant / cfg.gearRatio

/-- Modelled from the spec: `Command::doUnitConversion` (in `Command.cpp`,
not part of the provided sources) converts a physical position in radians to
wire ticks by multiplying with the position factor ("position factor =
encoderResolution / 2π (rad↔ticks)"). -/
def positionRadToTicks (cfg : Configuration) (piv : ℚ) (x : ℚ) : ℚ :=
  x * positionFactorRadToInteger cfg piv

/-- Modelled from the spec: the inverse direction of the rad↔ticks scaling
used to decode telemetry, dividing wire ticks by the position factor. -/
def ticksToPositionRad (cfg : Configuration) (piv : ℚ) (t : ℚ) : ℚ :=
  t / positionFactorRadToInteger cfg piv

/-- One bus cycle as seen by the lifecycle controller: `updateRead` with
decoded state `d` followed by `updateWrite` with elapsed dwell time `e`
(the frame output is dropped; only the state evolution matters here). -/
def cycleStep (cfg : Configuration) (staged : StagedCommand) (s : MaxonState)
    (obs : DriveState × Nat) : MaxonState :=
  (updateWrite cfg obs.2 staged (updateRead obs.1 s)).1

/-- A run of consecutive bus cycles over a list of
(decoded drive state, elapsed dwell time) observations. -/
def runCycles (cfg : Configuration) (staged : StagedCommand)
    (s : MaxonState) (l : List (DriveState × Nat)) : MaxonState :=
  l.foldl (cycleStep cfg staged) s

/-- Number of cycles of a run whose decoded drive state equals the target. -/
def countConfirms (tgt : DriveState) (l : List (DriveState × Nat)) : Nat :=
  (l.filter (fun p => p.1 = tgt)).length

/-- Length of the maximal run of consecutive confirming observations at the
end of the cycle list. -/
def trailingConfirms (tgt : DriveState) (l : List (DriveState × Nat)) : Nat :=
  (l.reverse.takeWhile (fun p => p.1 = tgt)).length

/-- The operations that touch the fresh-read / pending-change flags: a read
cycle (with a decoded state), a write cycle (with an elapsed dwell time),
and the arming of an asynchronous state request. -/
inductive Event
  | read (d : DriveState)
  | write (elapsed : Nat)
  | arm (d : DriveState)
deriving DecidableEq, Repr

/-- Whether an event is a read cycle. -/
def Event.isRead : Event → Bool
  | .read _ => true
  | _ => false

/-- The state evolution of one event. -/
def eventStep (cfg : Configuration) (staged : StagedCommand)
    (s : MaxonState) : Event → MaxonState
  | .read d => updateRead d s
  | .write e => (updateWrite cfg e staged s).1
  | .arm d => (setDriveStateViaPdoNoWait s d).1

/-- The state after executing a list of events. -/
def runEvents (cfg : Configuration) (staged : StagedCommand)
    (l : List Event) (s : MaxonState) : MaxonState :=
  l.foldl (eventStep cfg staged) s

/-- Whether executing the event in the given state invokes
`engagePdoStateMachine`: a write with a resolved mode of operation while a
state change is pending and a fresh read exists. -/
def engages (s : MaxonState) : Event → Bool
  | .write _ =>
      !(s.modeOfOperation = ModeOfOperationEnum.NA)
        && s.conductStateChange && s.hasRead
  | _ => false

/-- The state component of `updateWrite` before frame building: the engaged
(or unchanged) machine state.  Frame building never alters the lifecycle
flags, so all flag projections of `updateWrite`'s state result agree with
this. -/
def uwState (cfg : Configuration) (elapsed : Nat) (s : MaxonState) : MaxonState :=
  if s.modeOfOperation = ModeOfOperationEnum.NA then s
  else if s.conductStateChange && s.hasRead then
    engagePdoStateMachine cfg elapsed s
  else s

/-- A concrete configuration requiring two confirming reads
(`minNumberOfSuccessfulTargetStateReadings = 2`), CSP frames. -/
def exampleConfigMinTwo : Configuration :=
  { rxPdoTypeEnum := .RxPdoCSP
    txPdoTypeEnum := .TxPdoCSP
    modeOfOperationEnum := .CyclicSynchronousPositionMode
    useMultipleModeOfOperations := false
    useRawCommands := false
    positionEncoderResolution := 1024
    nominalCurrentA := 2
    motorConstant := 1
    gearRatio := 1
    maxCurrentA := 4
    minNumberOfSuccessfulTargetStateReadings := 2
    driveStateChangeMinTimeout := 5
    driveStateChangeMaxTimeout := 100
    configRunSdoVerifyTimeout := 10 }

/-- The same configuration with a single required confirming read. -/
def exampleConfigMinOne : Configuration :=
  { exampleConfigMinTwo with minNumberOfSuccessfulTargetStateReadings := 1 }

/-- The same configuration selecting the PVM write frame variant. -/
def exampleConfigPVM : Configuration :=
  { exampleConfigMinTwo with rxPdoTypeEnum := .RxPdoPVM }

/-- A concrete staged command. -/
def exampleStagedCommand : StagedCommand :=
  { targetPositionRaw := 7
    targetVelocityRaw := 3
    targetTorqueRaw := 2
    positionOffsetRaw := 0
    velocityOffsetRaw := 0
    torqueOffsetRaw := 1
    profileAccelRaw := 100
    profileDeccelRaw := 100
    motionProfileType := 0
    modeOfOperation := .CyclicSynchronousPositionMode }

/-- A concrete machine state with a freshly armed state change towards
`OperationEnabled` (as left behind by `setDriveStateViaPdo`). -/
def exampleState : MaxonState :=
  { modeOfOperation := .CyclicSynchronousPositionMode
    conductStateChange := true
    stateChangeSuccessful := false
    hasRead := false
    targetDriveState := .OperationEnabled
    numberOfSuccessfulTargetStateReadings := 0
    controlword := none
    readingDriveState := .SwitchOnDisabled
    readingErrors := [] }

/-- The armed state after a read cycle decoded the target state. -/
def exampleStateConfirm : MaxonState :=
  { exampleState with hasRead := true, readingDriveState := .OperationEnabled }

/-- A machine state whose mode of operation was never resolved. -/
def exampleStateNA : MaxonState :=
  { exampleState with modeOfOperation := .NA }

/-- Three read cycles decoding target, non-target, target: the confirming
reads are not consecutive. -/
def exampleObs : List (DriveState × Nat) :=
  [(.OperationEnabled, 0), (.SwitchedOn, 0), (.OperationEnabled, 0)]

/-- A cyclic-thread flag stream in which the state change never succeeds but
stays pending (`stateChangeSuccessful_ = false`, `conductStateChange_ = true`
at every poll). -/
def exampleNeverSuccessfulStates : Nat → Bool × Bool :=
  fun _ => (false, true)

/-- Frame building in `updateWrite` never alters the lifecycle flags: every
flag projection of its state result agrees with `uwState`. -/
theorem updateWrite_fst_flags (cfg : Configuration) (e : Nat)
    (staged : StagedCommand) (s : MaxonState) :
    ((updateWrite cfg e staged s).1).modeOfOperation = (uwState cfg e s).modeOfOperation ∧
    ((updateWrite cfg e staged s).1).conductStateChange = (uwState cfg e s).conductStateChange ∧
    ((updateWrite cfg e staged s).1).stateChangeSuccessful = (uwState cfg e s).stateChangeSuccessful ∧
    ((updateWrite cfg e staged s).1).hasRead = (uwState cfg e s).hasRead ∧
    ((updateWrite cfg e staged s).1).targetDriveState = (uwState cfg e s).targetDriveState ∧
    ((updateWrite cfg e staged s).1).numberOfSuccessfulTargetStateReadings
      = (uwState cfg e s).numberOfSuccessfulTargetStateReadings ∧
    ((updateWrite cfg e staged s).1).readingDriveState = (uwState cfg e s).readingDriveState ∧
    ((updateWrite cfg e staged s).1).controlword = (uwState cfg e s).controlword := by
  unfold updateWrite uwState
  by_cases hm : s.modeOfOperation = ModeOfOperationEnum.NA
  · simp [hm]
  · simp only [hm, if_false]
    cases h : cfg.rxPdoTypeEnum <;> simp

/-- Case analysis of one bus cycle while a state change is pending: either
the read confirmed the target and the counter reached the minimum (change
completed), or it confirmed the target with the counter still short
(counter incremented), or it did not confirm (counter and flags kept). -/
theorem cycleStep_flags (cfg : Configuration) (staged : StagedCommand)
    (s : MaxonState) (d : DriveState) (e : Nat)
    (hmode : ¬ s.modeOfOperation = ModeOfOperationEnum.NA)
    (hc : s.conductStateChange = true) :
    (cycleStep cfg staged s (d, e)).modeOfOperation = s.modeOfOperation ∧
    (cycleStep cfg staged s (d, e)).targetDriveState = s.targetDriveState ∧
    ((d = s.targetDriveState ∧
        cfg.minNumberOfSuccessfulTargetStateReadings
          ≤ s.numberOfSuccessfulTargetStateReadings + 1 ∧
        (cycleStep cfg staged s (d, e)).conductStateChange = false ∧
        (cycleStep cfg staged s (d, e)).stateChangeSuccessful = true ∧
        (cycleStep cfg staged s (d, e)).numberOfSuccessfulTargetStateReadings = 0) ∨
     (d = s.targetDriveState ∧
        ¬ cfg.minNumberOfSuccessfulTargetStateReadings
            ≤ s.numberOfSuccessfulTargetStateReadings + 1 ∧
        (cycleStep cfg staged s (d, e)).conductStateChange = true ∧
        (cycleStep cfg staged s (d, e)).stateChangeSuccessful = s.stateChangeSuccessful ∧
        (cycleStep cfg staged s (d, e)).numberOfSuccessfulTargetStateReadings
          = s.numberOfSuccessfulTargetStateReadings + 1) ∨
     (¬ d = s.targetDriveState ∧
        (cycleStep cfg staged s (d, e)).conductStateChange = true ∧
        (cycleStep cfg staged s (d, e)).stateChangeSuccessful = s.stateChangeSuccessful ∧
        (cycleStep cfg staged s (d, e)).numberOfSuccessfulTargetStateReadings
          = s.numberOfSuccessfulTargetStateReadings)) := by
  obtain ⟨h1, h2, h3, h4, h5, h6, h7, h8⟩ :=
    updateWrite_fst_flags cfg e staged (updateRead d s)
  have hu : uwState cfg e (updateRead d s)
      = engagePdoStateMachine cfg e (updateRead d s) := by
    unfold uwState updateRead
    simp [hmode, hc]
  have hcyc : cycleStep cfg staged s (d, e)
      = (updateWrite cfg e staged (updateRead d s)).1 := rfl
  rw [hcyc, h1, h2, h3, h5, h6, hu]
  unfold engagePdoStateMachine updateRead
  by_cases hd : d = s.targetDriveState
  · by_cases hmin : cfg.minNumberOfSuccessfulTargetStateReadings
        ≤ s.numberOfSuccessfulTargetStateReadings + 1
    · refine ⟨?_, ?_, Or.inl ⟨hd, hmin, ?_, ?_, ?_⟩⟩ <;> simp [hd, hmin, hc]
    · refine ⟨?_, ?_, Or.inr (Or.inl ⟨hd, hmin, ?_, ?_, ?_⟩)⟩ <;> simp [hd, hmin, hc]
  · by_cases he : cfg.driveStateChangeMinTimeout < e
    · refine ⟨?_, ?_, Or.inr (Or.inr ⟨hd, ?_, ?_, ?_⟩)⟩ <;> simp [hd, he, hc]
    · refine ⟨?_, ?_, Or.inr (Or.inr ⟨hd, ?_, ?_, ?_⟩)⟩ <;> simp [hd, he, hc]

/-- Unfolding of the confirming-read count over a cons. -/
theorem countConfirms_cons (tgt d : DriveState) (e : Nat)
    (rest : List (DriveState × Nat)) :
    countConfirms tgt ((d, e) :: rest)
      = (if d = tgt then 1 else 0) + countConfirms tgt rest := by
  unfold countConfirms
  by_cases h : d = tgt
  · simp [h, List.filter_cons]
    omega
  · simp [h, List.filter_cons]

/-- Unfolding of a cycle run over a cons. -/
theorem runCycles_cons (cfg : Configuration) (staged : StagedCommand)
    (s : MaxonState) (p : DriveState × Nat) (rest : List (DriveState × Nat)) :
    runCycles cfg staged s (p :: rest)
      = runCycles cfg staged (cycleStep cfg staged s p) rest := rfl

/-- A bus cycle with no pending state change leaves the success flag, the
pending flag and the confirmation counter untouched. -/
theorem cycleStep_inactive (cfg : Configuration) (staged : StagedCommand)
    (s : MaxonState) (p : DriveState × Nat)
    (h : s.conductStateChange = false) :
    (cycleStep cfg staged s p).stateChangeSuccessful = s.stateChangeSuccessful ∧
    (cycleStep cfg staged s p).conductStateChange = false ∧
    (cycleStep cfg staged s p).numberOfSuccessfulTargetStateReadings
      = s.numberOfSuccessfulTargetStateReadings := by
  obtain ⟨d, e⟩ := p
  obtain ⟨h1, h2, h3, h4, h5, h6, h7, h8⟩ :=
    updateWrite_fst_flags cfg e staged (updateRead d s)
  have hu : uwState cfg e (updateRead d s) = updateRead d s := by
    unfold uwState updateRead
    by_cases hm : s.modeOfOperation = ModeOfOperationEnum.NA <;> simp [hm, h]
  have hcyc : cycleStep cfg staged s (d, e)
      = (updateWrite cfg e staged (updateRead d s)).1 := rfl
  rw [hcyc, h2, h3, h6, hu]
  exact ⟨rfl, h, rfl⟩

/-- A run of bus cycles with no pending state change leaves the success
flag, the pending flag and the confirmation counter untouched. -/
theorem runCycles_inactive (cfg : Configuration) (staged : StagedCommand)
    (l : List (DriveState × Nat)) :
    ∀ s : MaxonState, s.conductStateChange = false →
    (runCycles cfg staged s l).stateChangeSuccessful = s.stateChangeSuccessful ∧
    (runCycles cfg staged s l).conductStateChange = false ∧
    (runCycles cfg staged s l).numberOfSuccessfulTargetStateReadings
      = s.numberOfSuccessfulTargetStateReadings := by
  induction l with
  | nil => exact fun s h => ⟨rfl, h, rfl⟩
  | cons p rest ih =>
      intro s h
      obtain ⟨k1, k2, k3⟩ := cycleStep_inactive cfg staged s p h
      obtain ⟨m1, m2, m3⟩ := ih (cycleStep cfg staged s p) k2
      rw [runCycles_cons]
      exact ⟨m1.trans k1, m2, m3.trans k3⟩

/-- Full characterization of asynchronous state-change completion over a run
of bus cycles: starting from a pending, not-yet-successful state, the change
is signaled successful exactly when the confirmation counter plus the number
of confirming reads in the run reaches the configured minimum (and at least
one confirming read occurred); upon success the pending flag is cleared and
the counter reset to zero. -/
theorem runCycles_success_char (cfg : Configuration) (staged : StagedCommand)
    (tgt : DriveState) (l : List (DriveState × Nat)) :
    ∀ s : MaxonState,
    ¬ s.modeOfOperation = ModeOfOperationEnum.NA →
    s.targetDriveState = tgt →
    s.conductStateChange = true →
    s.stateChangeSuccessful = false →
    (((runCycles cfg staged s l).stateChangeSuccessful = true ↔
       (cfg.minNumberOfSuccessfulTargetStateReadings
          ≤ s.numberOfSuccessfulTargetStateReadings + countConfirms tgt l ∧
        1 ≤ countConfirms tgt l)) ∧
     ((runCycles cfg staged s l).stateChangeSuccessful = true →
       (runCycles cfg staged s l).conductStateChange = false ∧
       (runCycles cfg staged s l).numberOfSuccessfulTargetStateReadings = 0)) := by
  induction l with
  | nil =>
      intro s hm ht hc hs
      constructor
      · rw [show runCycles cfg staged s [] = s from rfl, hs]
        unfold countConfirms
        simp
      · rw [show runCycles cfg staged s [] = s from rfl, hs]
        simp
  | cons p rest ih =>
      intro s hm ht hc hs
      obtain ⟨d, e⟩ := p
      obtain ⟨f1, f2, fcases⟩ := cycleStep_flags cfg staged s d e hm hc
      rw [runCycles_cons, countConfirms_cons]
      rcases fcases with ⟨hd, hmin, g1, g2, g3⟩ | ⟨hd, hmin, g1, g2, g3⟩ | ⟨hd, g1, g2, g3⟩
      · obtain ⟨m1, m2, m3⟩ := runCycles_inactive cfg staged rest _ g1
        rw [ht] at hd
        constructor
        · rw [m1, g2, if_pos hd]
          constructor
          · intro _
            exact ⟨by omega, by omega⟩
          · intro _
            rfl
        · intro _
          exact ⟨m2, m3.trans g3⟩
      · obtain ⟨i1, i2⟩ := ih (cycleStep cfg staged s (d, e))
          (by rw [f1]; exact hm) (by rw [f2]; exact ht) g1 (g2.trans hs)
        rw [ht] at hd
        constructor
        · rw [i1, g3, if_pos hd]
          constructor
          · rintro ⟨a, b⟩
            exact ⟨by omega, by omega⟩
          · rintro ⟨a, b⟩
            exact ⟨by omega, by omega⟩
        · exact i2
      · obtain ⟨i1, i2⟩ := ih (cycleStep cfg staged s (d, e))
          (by rw [f1]; exact hm) (by rw [f2]; exact ht) g1 (g2.trans hs)
        rw [ht] at hd
        constructor
        · rw [i1, g3, if_neg hd]
          constructor
          · rintro ⟨a, b⟩
            exact ⟨by omega, by omega⟩
          · rintro ⟨a, b⟩
            exact ⟨by omega, by omega⟩
        · exact i2

/-- An engaging event requires the pending and fresh-read flags. -/
theorem engages_needs_guard (s : MaxonState) (ev : Event)
    (h : engages s ev = true) :
    (s.conductStateChange && s.hasRead) = true := by
  cases ev with
  | read d => simp [engages] at h
  | arm d => simp [engages] at h
  | write e =>
      simp only [engages, Bool.and_assoc, Bool.and_eq_true] at h
      simp [h.2.1, h.2.2]

/-- Every invocation of `engagePdoStateMachine` either clears the pending
flag (completion) or clears the fresh-read flag. -/
theorem engage_clears_guard (cfg : Configuration) (e : Nat) (s : MaxonState) :
    ((engagePdoStateMachine cfg e s).conductStateChange
      && (engagePdoStateMachine cfg e s).hasRead) = false := by
  unfold engagePdoStateMachine
  by_cases hd : s.readingDriveState = s.targetDriveState
  · by_cases hmin : cfg.minNumberOfSuccessfulTargetStateReadings
        ≤ s.numberOfSuccessfulTargetStateReadings + 1
    · simp [hd, hmin]
    · simp [hd, hmin]
  · by_cases he : cfg.driveStateChangeMinTimeout < e
    · simp [hd, he]
    · simp [hd, he]

/-- After an engaging event, the pending and fresh-read flags are no longer
both set. -/
theorem eventStep_engaging_clears_guard (cfg : Configuration)
    (staged : StagedCommand) (s : MaxonState) (ev : Event)
    (h : engages s ev = true) :
    ((eventStep cfg staged s ev).conductStateChange
      && (eventStep cfg staged s ev).hasRead) = false := by
  cases ev with
  | read d => simp [engages] at h
  | arm d => simp [engages] at h
  | write e =>
      simp only [engages, Bool.and_assoc, Bool.and_eq_true, Bool.not_eq_eq_eq_not,
        Bool.not_true, decide_eq_false_iff_not] at h
      obtain ⟨h1, h2, h3⟩ := h
      obtain ⟨k1, k2, k3, k4, k5, k6, k7, k8⟩ := updateWrite_fst_flags cfg e staged s
      have hu : uwState cfg e s = engagePdoStateMachine cfg e s := by
        unfold uwState
        simp [h1, h2, h3]
      show ((updateWrite cfg e staged s).1.conductStateChange
        && (updateWrite cfg e staged s).1.hasRead) = false
      rw [k2, k4, hu]
      exact engage_clears_guard cfg e s

/-- A non-read event cannot re-establish the pending-and-fresh-read guard:
writes that do not engage leave the flags alone, and arming a new request
clears the fresh-read flag. -/
theorem eventStep_nonread_preserves_notguard (cfg : Configuration)
    (staged : StagedCommand) (s : MaxonState) (ev : Event)
    (h : (s.conductStateChange && s.hasRead) = false)
    (hev : ev.isRead = false) :
    ((eventStep cfg staged s ev).conductStateChange
      && (eventStep cfg staged s ev).hasRead) = false := by
  cases ev with
  | read d => simp [Event.isRead] at hev
  | arm d =>
      show (((setDriveStateViaPdoNoWait s d).1).conductStateChange
        && ((setDriveStateViaPdoNoWait s d).1).hasRead) = false
      simp [setDriveStateViaPdoNoWait]
  | write e =>
      obtain ⟨k1, k2, k3, k4, k5, k6, k7, k8⟩ := updateWrite_fst_flags cfg e staged s
      have hu : uwState cfg e s = s := by
        unfold uwState
        by_cases hm : s.modeOfOperation = ModeOfOperationEnum.NA
        · simp [hm]
        · simp [hm, h]
      show ((updateWrite cfg e staged s).1.conductStateChange
        && (updateWrite cfg e staged s).1.hasRead) = false
      rw [k2, k4, hu]
      exact h

/-- A run of non-read events preserves the absence of the
pending-and-fresh-read guard. -/
theorem runEvents_nonread_preserves_notguard (cfg : Configuration)
    (staged : StagedCommand) (l : List Event) :
    ∀ s : MaxonState, (s.conductStateChange && s.hasRead) = false →
    (∀ ev ∈ l, ev.isRead = false) →
    ((runEvents cfg staged l s).conductStateChange
      && (runEvents cfg staged l s).hasRead) = false := by
  induction l with
  | nil => exact fun s h _ => h
  | cons ev rest ih =>
      intro s h hl
      have h1 : (runEvents cfg staged (ev :: rest) s)
          = runEvents cfg staged rest (eventStep cfg staged s ev) := rfl
      rw [h1]
      exact ih _ (eventStep_nonread_preserves_notguard cfg staged s ev h
          (hl ev (List.mem_cons_self ev rest)))
        (fun x hx => hl x (List.mem_cons_of_mem ev hx))

/-- If the success flag is never observed set, the waiting loop runs to its
timeout and returns failure, passing the pending flag through unchanged. -/
theorem pdoWaitAux_no_success (timeout : Nat) (states : Nat → Bool × Bool)
    (h : ∀ n, (states n).1 = false) :
    ∀ k n, n + k = timeout + 1 →
      pdoWaitAux timeout states n = (false, (states (timeout + 1)).2) := by
  intro k
  induction k with
  | zero =>
      intro n hn
      have hn' : n = timeout + 1 := by omega
      subst hn'
      rw [pdoWaitAux]
      simp [h (timeout + 1)]
  | succ k ih =>
      intro n hn
      rw [pdoWaitAux]
      rw [if_neg (by simp [h n])]
      rw [dif_neg (by omega)]
      exact ih (n + 1) (by omega)

/-- Claim C1, counterexample to the claim as stated: with a configured
minimum of 2 confirming reads, the read stream target / other / target
completes the state change at the third evaluation although only 1
consecutive confirming evaluation precedes completion (the counter is not
reset by the non-confirming middle read), so completion IS signaled after
fewer than the configured minimum of consecutive confirming evaluations. -/
theorem claim1_counterexample :
    (runCycles exampleConfigMinTwo exampleStagedCommand exampleState
       exampleObs).stateChangeSuccessful = true ∧
    trailingConfirms DriveState.OperationEnabled exampleObs = 1 ∧
    trailingConfirms DriveState.OperationEnabled exampleObs
      < exampleConfigMinTwo.minNumberOfSuccessfulTargetStateReadings := by
  decide

/-- Claim C1 (amended): for the asynchronous (cyclic-channel) state request,
each evaluation with a fresh read compares the decoded current drive state to
the target; when they are equal the confirmation counter is incremented, and
exactly when the counter reaches the configured minimum number of confirming
reads the change is marked complete (success flag set, pending flag cleared,
counter reset to zero).  Completion is signaled exactly when the cumulative
number of confirming evaluations (plus any counter value carried into the
run) reaches the configured minimum; the confirming evaluations need not be
consecutive, since the counter is not reset by a non-confirming read. -/
theorem claim1_async_confirmation_debounce (cfg : Configuration)
    (staged : StagedCommand) (tgt : DriveState)
    (l : List (DriveState × Nat)) (s : MaxonState)
    (hmode : ¬ s.modeOfOperation = ModeOfOperationEnum.NA)
    (htgt : s.targetDriveState = tgt)
    (hconduct : s.conductStateChange = true)
    (hsucc : s.stateChangeSuccessful = false) :
    (((runCycles cfg staged s l).stateChangeSuccessful = true ↔
       (cfg.minNumberOfSuccessfulTargetStateReadings
          ≤ s.numberOfSuccessfulTargetStateReadings + countConfirms tgt l ∧
        1 ≤ countConfirms tgt l)) ∧
     ((runCycles cfg staged s l).stateChangeSuccessful = true →
       (runCycles cfg staged s l).conductStateChange = false ∧
       (runCycles cfg staged s l).numberOfSuccessfulTargetStateReadings = 0)) :=
  runCycles_success_char cfg staged tgt l s hmode htgt hconduct hsucc

/-- Witness for C1: the amended theorem applied to the concrete armed state,
the two-confirmations configuration and the concrete read stream. -/
theorem claim1_witness :
    (((runCycles exampleConfigMinTwo exampleStagedCommand exampleState
         exampleObs).stateChangeSuccessful = true ↔
       (exampleConfigMinTwo.minNumberOfSuccessfulTargetStateReadings
          ≤ exampleState.numberOfSuccessfulTargetStateReadings
            + countConfirms DriveState.OperationEnabled exampleObs ∧
        1 ≤ countConfirms DriveState.OperationEnabled exampleObs)) ∧
     ((runCycles exampleConfigMinTwo exampleStagedCommand exampleState
         exampleObs).stateChangeSuccessful = true →
       (runCycles exampleConfigMinTwo exampleStagedCommand exampleState
         exampleObs).conductStateChange = false ∧
       (runCycles exampleConfigMinTwo exampleStagedCommand exampleState
         exampleObs).numberOfSuccessfulTargetStateReadings = 0)) :=
  claim1_async_confirmation_debounce exampleConfigMinTwo exampleStagedCommand
    DriveState.OperationEnabled exampleObs exampleState
    (by decide) (by decide) (by decide) (by decide)

/-- Claim C2: when mode switching is disallowed (`allowModeChange_` false)
and the staged command requests a different, non-NA mode, the change is
rejected (error reported, previous active mode retained); when mode
switching is allowed, the active mode is updated to the command's mode. -/
theorem claim2_mode_change_policy :
    ∀ active cmdMode : ModeOfOperationEnum,
      (cmdMode ≠ active → cmdMode ≠ ModeOfOperationEnum.NA →
        stageCommandMode false active cmdMode = (active, true)) ∧
      stageCommandMode true active cmdMode = (cmdMode, false) := by
  decide

/-- Witness for C2: a rejected mode change with multi-mode disabled, and the
same change applied with multi-mode enabled. -/
theorem claim2_witness :
    stageCommandMode false ModeOfOperationEnum.CyclicSynchronousPositionMode
        ModeOfOperationEnum.CyclicSynchronousTorqueMode
      = (ModeOfOperationEnum.CyclicSynchronousPositionMode, true) ∧
    stageCommandMode true ModeOfOperationEnum.CyclicSynchronousPositionMode
        ModeOfOperationEnum.CyclicSynchronousTorqueMode
      = (ModeOfOperationEnum.CyclicSynchronousTorqueMode, false) :=
  ⟨(claim2_mode_change_policy ModeOfOperationEnum.CyclicSynchronousPositionMode
      ModeOfOperationEnum.CyclicSynchronousTorqueMode).1 (by decide) (by decide),
   (claim2_mode_change_policy ModeOfOperationEnum.CyclicSynchronousPositionMode
      ModeOfOperationEnum.CyclicSynchronousTorqueMode).2⟩

/-- Claim C3, counterexample to the claim as stated: the SDO transition plan
for SwitchOnDisabled to QuickStopActive is the four-transition list
2, 3, 4, 11 — not a list of one or two transitions. -/
theorem claim3_counterexample :
    (setDriveStateViaSdo DriveState.QuickStopActive
        DriveState.SwitchOnDisabled).1
      = some [StateTransition.t2, StateTransition.t3, StateTransition.t4,
              StateTransition.t11] ∧
    ¬ (((setDriveStateViaSdo DriveState.QuickStopActive
           DriveState.SwitchOnDisabled).1.getD []).length = 1 ∨
       ((setDriveStateViaSdo DriveState.QuickStopActive
           DriveState.SwitchOnDisabled).1.getD []).length = 2) := by
  decide

/-- Claim C3 (amended): for every ordered pair of distinct drive states whose
requested state is not Fault, the SDO transition mapping yields exactly one
ordered list of one to five transitions and the PDO mapping yields exactly
one next transition without error; every self-pair other than Fault yields
the empty list (no transition issued); pairs requesting Fault have no
mapping on either channel (an error is reported instead). -/
theorem claim3_transition_table_shape :
    ∀ current requested : DriveState,
      ((current = requested ∧ requested ≠ DriveState.Fault) →
        (setDriveStateViaSdo requested current).1 = some [] ∧
        (getNextStateTransitionControlword requested current).1 = none) ∧
      (current ≠ requested → requested ≠ DriveState.Fault →
        ((setDriveStateViaSdo requested current).1.isSome = true ∧
         1 ≤ ((setDriveStateViaSdo requested current).1.getD []).length ∧
         ((setDriveStateViaSdo requested current).1.getD []).length ≤ 5 ∧
         (getNextStateTransitionControlword requested current).1.isSome = true ∧
         (getNextStateTransitionControlword requested current).2 = false)) ∧
      (requested = DriveState.Fault →
        setDriveStateViaSdo requested current = (none, true) ∧
        (getNextStateTransitionControlword requested current).1 = none) := by
  decide

/-- Witness for C3: the distinct pair SwitchOnDisabled to OperationEnabled
instantiating the amended table shape. -/
theorem claim3_witness :
    (setDriveStateViaSdo DriveState.OperationEnabled
        DriveState.SwitchOnDisabled).1.isSome = true ∧
    1 ≤ ((setDriveStateViaSdo DriveState.OperationEnabled
        DriveState.SwitchOnDisabled).1.getD []).length ∧
    ((setDriveStateViaSdo DriveState.OperationEnabled
        DriveState.SwitchOnDisabled).1.getD []).length ≤ 5 ∧
    (getNextStateTransitionControlword DriveState.OperationEnabled
        DriveState.SwitchOnDisabled).1.isSome = true ∧
    (getNextStateTransitionControlword DriveState.OperationEnabled
        DriveState.SwitchOnDisabled).2 = false :=
  (claim3_transition_table_shape DriveState.SwitchOnDisabled
      DriveState.OperationEnabled).2.1 (by decide) (by decide)

/-- Claim C4, counterexample to the claim as stated: requesting
OperationEnabled while already in OperationEnabled on the SDO channel yields
the empty transition list with NO error reported (the code executes
`success &= true` silently), contradicting the claim that an already-reached
condition is raised on both channels. -/
theorem claim4_counterexample :
    setDriveStateViaSdo DriveState.OperationEnabled
        DriveState.OperationEnabled
      = (some [], false) := by
  decide

/-- Claim C4 (amended): for every self-pair, the PDO channel yields no
state-transition controlword and reports the already-reached condition
(`PdoStateTransitionError`); the SDO channel, for self-pairs other than
Fault, yields the empty transition list and succeeds silently with no error
reported, and for the Fault self-pair reports `SdoStateTransitionError` with
no transition list. -/
theorem claim4_self_request :
    ∀ s : DriveState,
      getNextStateTransitionControlword s s = (none, true) ∧
      (s ≠ DriveState.Fault → setDriveStateViaSdo s s = (some [], false)) ∧
      (s = DriveState.Fault → setDriveStateViaSdo s s = (none, true)) := by
  decide

/-- Witness for C4: the SwitchedOn self-pair on both channels. -/
theorem claim4_witness :
    getNextStateTransitionControlword DriveState.SwitchedOn
        DriveState.SwitchedOn = (none, true) ∧
    setDriveStateViaSdo DriveState.SwitchedOn DriveState.SwitchedOn
      = (some [], false) :=
  ⟨(claim4_self_request DriveState.SwitchedOn).1,
   (claim4_self_request DriveState.SwitchedOn).2.1 (by decide)⟩

/-- Claim C5: when the active mode of operation is NA, `updateWrite` adds a
`ModeOfOperationError` to the Reading's errors and returns immediately: no
frame is emitted and the lifecycle state machine is not engaged (the state
is unchanged apart from the added error). -/
theorem claim5_na_mode_skips_write (cfg : Configuration) (elapsed : Nat)
    (staged : StagedCommand) (s : MaxonState)
    (h : s.modeOfOperation = ModeOfOperationEnum.NA) :
    updateWrite cfg elapsed staged s
      = ({ s with readingErrors :=
             ErrorType.ModeOfOperationError :: s.readingErrors }, none) := by
  unfold updateWrite
  rw [if_pos h]

/-- Witness for C5: the concrete NA-mode state. -/
theorem claim5_witness :
    updateWrite exampleConfigMinTwo 0 exampleStagedCommand exampleStateNA
      = ({ exampleStateNA with readingErrors :=
             ErrorType.ModeOfOperationError :: exampleStateNA.readingErrors },
         none) :=
  claim5_na_mode_skips_write exampleConfigMinTwo 0 exampleStagedCommand
    exampleStateNA (by decide)

/-- Claim C6: if the success flag is never observed set before the
configured maximum timeout elapses, the waiting caller of the asynchronous
state request receives failure (`false`), and the pending-change flag is
whatever the last cycle produced — the timeout path does not force-clear
it. -/
theorem claim6_timeout_returns_failure (cfg : Configuration)
    (states : Nat → Bool × Bool)
    (h : ∀ n, (states n).1 = false) :
    setDriveStateViaPdoWait cfg states
      = (false, (states (cfg.driveStateChangeMaxTimeout + 1)).2) ∧
    ((states (cfg.driveStateChangeMaxTimeout + 1)).2 = true →
      (setDriveStateViaPdoWait cfg states).2 = true) := by
  have h1 : setDriveStateViaPdoWait cfg states
      = (false, (states (cfg.driveStateChangeMaxTimeout + 1)).2) :=
    pdoWaitAux_no_success cfg.driveStateChangeMaxTimeout states h
      (cfg.driveStateChangeMaxTimeout + 1) 0 (by omega)
  refine ⟨h1, fun h2 => ?_⟩
  rw [h1, h2]

/-- Witness for C6: a stream that never succeeds and stays pending gives
failure with the pending flag still set. -/
theorem claim6_witness :
    setDriveStateViaPdoWait exampleConfigMinTwo exampleNeverSuccessfulStates
      = (false, true) :=
  (claim6_timeout_returns_failure exampleConfigMinTwo
    exampleNeverSuccessfulStates (fun _ => rfl)).1

/-- Claim C7, counterexample to the claim as stated: with the PVM write
frame variant a frame is emitted, but it carries no mode-of-operation byte
(the `RxPdoPVM` case of `updateWrite` assigns controlword, target velocity,
profile acceleration and deceleration and motion profile type only). -/
theorem claim7_counterexample :
    ((updateWrite exampleConfigPVM 0 exampleStagedCommand
        exampleState).2).isSome = true ∧
    Option.map RxFrame.modeOfOperationOf
        (updateWrite exampleConfigPVM 0 exampleStagedCommand exampleState).2
      = some none := by
  decide

/-- Claim C7 (amended): for every supported write frame variant, the single
frame emitted per `updateWrite` call carries the control word; every variant
except PVM also carries the mode-of-operation byte. -/
theorem claim7_frame_contents (cfg : Configuration) (elapsed : Nat)
    (staged : StagedCommand) (s : MaxonState)
    (hmode : ¬ s.modeOfOperation = ModeOfOperationEnum.NA)
    (hrx : cfg.rxPdoTypeEnum ≠ RxPdoTypeEnum.NA) :
    ∃ f, (updateWrite cfg elapsed staged s).2 = some f ∧
      f.controlWordOf = ((updateWrite cfg elapsed staged s).1).controlword ∧
      (cfg.rxPdoTypeEnum ≠ RxPdoTypeEnum.RxPdoPVM →
        (f.modeOfOperationOf).isSome = true) := by
  unfold updateWrite
  rw [if_neg hmode]
  cases h : cfg.rxPdoTypeEnum with
  | NA => exact absurd h hrx
  | RxPdoStandard => exact ⟨_, rfl, rfl, fun _ => rfl⟩
  | RxPdoCSP => exact ⟨_, rfl, rfl, fun _ => rfl⟩
  | RxPdoCST => exact ⟨_, rfl, rfl, fun _ => rfl⟩
  | RxPdoCSV => exact ⟨_, rfl, rfl, fun _ => rfl⟩
  | RxPdoCSTCSP => exact ⟨_, rfl, rfl, fun _ => rfl⟩
  | RxPdoPVM => exact ⟨_, rfl, rfl, fun hcontra => absurd rfl hcontra⟩

/-- Witness for C7: the CSP variant emits a frame carrying both the control
word and the mode byte. -/
theorem claim7_witness :
    ∃ f, (updateWrite exampleConfigMinTwo 0 exampleStagedCommand
            exampleState).2 = some f ∧
      f.controlWordOf
        = ((updateWrite exampleConfigMinTwo 0 exampleStagedCommand
             exampleState).1).controlword ∧
      (exampleConfigMinTwo.rxPdoTypeEnum ≠ RxPdoTypeEnum.RxPdoPVM →
        (f.modeOfOperationOf).isSome = true) :=
  claim7_frame_contents exampleConfigMinTwo 0 exampleStagedCommand
    exampleState (by decide) (by decide)

/-- Claim C8: the staged command's scaling uses position factor
encoderResolution divided by 2π, current factor 1000 divided by the nominal
current, and torque factor equal to the current factor divided by motor
constant times gear ratio; converting a physical position of 2π rad with
encoder resolution R yields R encoder ticks (exactly, hence also after
rounding), and decoding R ticks back yields 2π rad.  The constant `M_PI` is
abstracted by the parameter `piv`; the facts hold for every nonzero value. -/
theorem claim8_scaling_roundtrip (cfg : Configuration) (piv : ℚ) (R : ℕ)
    (hres : cfg.positionEncoderResolution = (R : ℚ))
    (hpi : piv ≠ 0) (hR : R ≠ 0) :
    positionFactorRadToInteger cfg piv
        = cfg.positionEncoderResolution / (2 * piv) ∧
    currentFactorAToInteger cfg = 1000 / cfg.nominalCurrentA ∧
    torqueFactorNmToInteger cfg
        = currentFactorAToInteger cfg
            / (cfg.motorConstant * cfg.gearRatio) ∧
    positionRadToTicks cfg piv (2 * piv) = (R : ℚ) ∧
    round (positionRadToTicks cfg piv (2 * piv)) = (R : ℤ) ∧
    ticksToPositionRad cfg piv (R : ℚ) = 2 * piv := by
  have hRq : (R : ℚ) ≠ 0 := Nat.cast_ne_zero.mpr hR
  have h4 : positionRadToTicks cfg piv (2 * piv) = (R : ℚ) := by
    unfold positionRadToTicks positionFactorRadToInteger
    rw [hres]
    field_simp
  refine ⟨rfl, rfl, ?_, h4, ?_, ?_⟩
  · unfold torqueFactorNmToInteger
    rw [div_div]
  · rw [h4, round_natCast]
  · unfold ticksToPositionRad positionFactorRadToInteger
    rw [hres]
    rw [div_div_eq_mul_div, mul_comm, mul_div_assoc, div_self hRq, mul_one]

/-- Witness for C8: resolution 1024 and the rational 355/113 standing for
the value of `M_PI`. -/
theorem claim8_witness :
    positionFactorRadToInteger exampleConfigMinTwo (355 / 113)
        = exampleConfigMinTwo.positionEncoderResolution / (2 * (355 / 113)) ∧
    currentFactorAToInteger exampleConfigMinTwo
        = 1000 / exampleConfigMinTwo.nominalCurrentA ∧
    torqueFactorNmToInteger exampleConfigMinTwo
        = currentFactorAToInteger exampleConfigMinTwo
            / (exampleConfigMinTwo.motorConstant
                * exampleConfigMinTwo.gearRatio) ∧
    positionRadToTicks exampleConfigMinTwo (355 / 113) (2 * (355 / 113))
        = ((1024 : ℕ) : ℚ) ∧
    round (positionRadToTicks exampleConfigMinTwo (355 / 113)
        (2 * (355 / 113))) = ((1024 : ℕ) : ℤ) ∧
    ticksToPositionRad exampleConfigMinTwo (355 / 113) ((1024 : ℕ) : ℚ)
        = 2 * (355 / 113) :=
  claim8_scaling_roundtrip exampleConfigMinTwo (355 / 113) 1024
    (by simp [exampleConfigMinTwo]) (by simp) (by decide)

/-- Claim C9: the asynchronous state request with `waitForState = false`
returns true unconditionally and immediately, after arming the pending flag,
recording the target, resetting the success flag and clearing the fresh-read
flag — before any transition is applied (the controlword is untouched, as
are the reading and its errors). -/
theorem claim9_nowait_returns_true (s : MaxonState) (d : DriveState) :
    (setDriveStateViaPdoNoWait s d).2 = true ∧
    (setDriveStateViaPdoNoWait s d).1.conductStateChange = true ∧
    (setDriveStateViaPdoNoWait s d).1.targetDriveState = d ∧
    (setDriveStateViaPdoNoWait s d).1.stateChangeSuccessful = false ∧
    (setDriveStateViaPdoNoWait s d).1.hasRead = false ∧
    (setDriveStateViaPdoNoWait s d).1.controlword = s.controlword ∧
    (setDriveStateViaPdoNoWait s d).1.readingDriveState = s.readingDriveState ∧
    (setDriveStateViaPdoNoWait s d).1.readingErrors = s.readingErrors ∧
    (setDriveStateViaPdoNoWait s d).1.modeOfOperation = s.modeOfOperation :=
  ⟨rfl, rfl, rfl, rfl, rfl, rfl, rfl, rfl, rfl⟩

/-- Claim C10, counterexample to the claim as stated: a completing
invocation of `engagePdoStateMachine` (decoded state equals the target and
the counter reaches the minimum) returns early WITHOUT clearing the
fresh-read flag — it clears the pending flag instead. -/
theorem claim10_counterexample :
    exampleStateConfirm.conductStateChange = true ∧
    exampleStateConfirm.hasRead = true ∧
    (engagePdoStateMachine exampleConfigMinOne 0
        exampleStateConfirm).conductStateChange = false ∧
    (engagePdoStateMachine exampleConfigMinOne 0
        exampleStateConfirm).hasRead = true := by
  decide

/-- Claim C10 (amended): every invocation of `engagePdoStateMachine` clears
the fresh-read flag OR the pending flag (the completing invocation clears the
pending flag and leaves the fresh-read flag set); `updateWrite` engages it
only when both flags are set, only `updateRead` sets the fresh-read flag,
and arming a new request clears it; consequently after any engaging write,
no later operation can engage again until at least one read cycle
completes. -/
theorem claim10_read_between_engagements (cfg : Configuration)
    (staged : StagedCommand) (s : MaxonState) (first : Event)
    (mid : List Event) (next : Event)
    (h1 : engages s first = true)
    (h2 : ∀ ev ∈ mid, ev.isRead = false) :
    engages (runEvents cfg staged mid (eventStep cfg staged s first)) next
      = false := by
  cases hcon : engages (runEvents cfg staged mid
      (eventStep cfg staged s first)) next with
  | false => rfl
  | true =>
      have hg := engages_needs_guard _ _ hcon
      have hng := runEvents_nonread_preserves_notguard cfg staged mid _
        (eventStep_engaging_clears_guard cfg staged s first h1) h2
      rw [hg] at hng
      simp at hng

/-- Witness for C10: after an engaging write in the confirmed state, an arm
and another write (no read in between) cannot engage again. -/
theorem claim10_witness :
    engages (runEvents exampleConfigMinTwo exampleStagedCommand
        [Event.arm DriveState.SwitchedOn, Event.write 7]
        (eventStep exampleConfigMinTwo exampleStagedCommand
          exampleStateConfirm (Event.write 0)))
      (Event.write 9) = false :=
  claim10_read_between_engagements exampleConfigMinTwo exampleStagedCommand
    exampleStateConfirm (Event.write 0)
    [Event.arm DriveState.SwitchedOn, Event.write 7]
    (Event.write 9) (by decide) (by decide)

end Maxon

